import Mathlib

/-!
Verification of the BullfolioMomentum pipeline (main.py, new.py, main_ui.py)
against its natural-language specification.

The three scripts are near-duplicates of a batch return-ranking and parallel
chart-rendering pipeline.  We shallowly embed the data model and the
operations the claims concern:

* OHLCV bars and clean series (`Bar`, `List Bar`), with prices as exact
  rationals modelling Python's 64-bit floats;
* the three copies of `calculate_return` (main.py, main_ui.py, new.py differ
  in their guards, so each is embedded separately);
* the raw multi-instrument dataset and the extractor
  `get_single_symbol_df_from_raw`;
* the symbol loader `read_csv_and_get_symbols` with Python slice semantics;
* the ranking sort (Python's stable descending `list.sort`), embedded as a
  stable merge sort with the corresponding total preorder;
* the parallel renderer fan-out: `save_candlestick_chart` outcomes plus the
  `as_completed` collection loop of main.py / new.py (completion order is an
  arbitrary permutation of the submitted tasks) and the `ex.map` collection
  of main_ui.py (which re-raises);
* effect traces of `main()` (main.py, new.py) and `run_backend_processing`
  (main_ui.py) recording the order of configuration checks, network fetches,
  output-directory preparation and rendering.
-/

namespace Bullfolio

/-- One OHLCV bar of a clean series.  Prices/volume are modelled as exact
rationals standing for Python floats. -/
structure Bar where
  Open : ℚ
  High : ℚ
  Low : ℚ
  Close : ℚ
  Volume : ℚ
deriving DecidableEq, Repr

/-- `df['Close'].iloc[0]` with the out-of-range default never used by guarded
callers. -/
def firstClose (df : List Bar) : ℚ :=
  (df.head?.map Bar.Close).getD 0

/-- `df['Close'].iloc[-1]` with the out-of-range default never used by guarded
callers. -/
def lastClose (df : List Bar) : ℚ :=
  (df.getLast?.map Bar.Close).getD 0

/-- main.py `calculate_return` (lines 100-109): guarded by `len(df) < 2` and
`start_price == 0`, both returning `0.0`; otherwise the percentage formula.
The surrounding `try/except` returns `None`, but no operation on a clean
series can raise once the length guard has passed, so the embedding always
returns `some`. -/
def calculate_return (df : List Bar) : Option ℚ :=
  if df.length < 2 then some 0
  else
    let s := firstClose df
    let e := lastClose df
    if s = 0 then some 0 else some ((e - s) / s * 100)

/-- main_ui.py `calculate_return` (lines 79-83): same guards as main.py but
with no `try/except` at all; total on clean series. -/
def calculate_return_ui (df : List Bar) : ℚ :=
  if df.length < 2 then 0
  else
    let s := firstClose df
    let e := lastClose df
    if s = 0 then 0 else (e - s) / s * 100

/-- new.py `calculate_return` (lines 103-109): NO length guard and NO
zero-price guard.  On an empty series `iloc[0]` raises `IndexError`, and on a
zero first close the division raises `ZeroDivisionError`; both are caught by
the bare `except` and yield `None`. -/
def calculate_return_new (df : List Bar) : Option ℚ :=
  match df with
  | [] => none
  | b :: rest =>
    let s := b.Close
    let e := lastClose (b :: rest)
    if s = 0 then none
    else some ((e - s) / s * 100)

theorem firstClose_cons (b : Bar) (l : List Bar) :
    firstClose (b :: l) = b.Close := rfl

/-- C3: with at least 2 bars and a nonzero first close, all three copies of
`calculate_return` return exactly `(last_close - first_close) / first_close
* 100`. -/
theorem calculate_return_formula (df : List Bar)
    (h2 : 2 ≤ df.length) (h0 : firstClose df ≠ 0) :
    calculate_return df
        = some ((lastClose df - firstClose df) / firstClose df * 100)
      ∧ calculate_return_ui df
        = (lastClose df - firstClose df) / firstClose df * 100
      ∧ calculate_return_new df
        = some ((lastClose df - firstClose df) / firstClose df * 100) := by
  have hlt : ¬ df.length < 2 := by omega
  refine ⟨?_, ?_, ?_⟩
  · simp [calculate_return, hlt, h0]
  · simp [calculate_return_ui, hlt, h0]
  · cases df with
    | nil => simp at h2
    | cons b rest =>
      have hb : b.Close = firstClose (b :: rest) := rfl
      simp [calculate_return_new, hb, h0]

/-- Witness for C3 on the two-bar series with closes 10 and 12: the return is
20%. -/
theorem calculate_return_formula_witness :
    calculate_return [⟨10, 10, 10, 10, 1⟩, ⟨12, 12, 12, 12, 1⟩]
      = some 20 := by
  have h := calculate_return_formula
    [⟨10, 10, 10, 10, 1⟩, ⟨12, 12, 12, 12, 1⟩]
    (by decide) (by decide)
  rw [h.1]
  norm_num [lastClose, firstClose]

/-- C4 counterexample: new.py's `calculate_return` does NOT return `0.0` on a
series with fewer than 2 bars or a zero first close: on the empty series it
returns `None` (an `IndexError` is caught), and on a two-bar series whose
first close is `0` it returns `None` (a `ZeroDivisionError` is caught). -/
theorem calculate_return_new_not_soft_zero :
    calculate_return_new [] ≠ some 0
      ∧ calculate_return_new [⟨1, 1, 1, 0, 1⟩, ⟨1, 1, 1, 5, 1⟩] ≠ some 0 := by
  constructor
  · simp [calculate_return_new]
  · simp [calculate_return_new]

/-- C4 amended: main.py's and main_ui.py's `calculate_return` return exactly
`0.0` for every series with fewer than 2 bars and for every series with a
zero first close; new.py's copy instead returns `None` (recorded as a failed
symbol) on the empty series and whenever the first close is zero, and returns
`0.0` on a one-bar series only when its close is nonzero. -/
theorem calculate_return_soft_zero (df : List Bar)
    (h : df.length < 2 ∨ firstClose df = 0) :
    calculate_return df = some 0
      ∧ calculate_return_ui df = 0
      ∧ (df = [] → calculate_return_new df = none)
      ∧ (firstClose df = 0 → df ≠ [] → calculate_return_new df = none)
      ∧ (∀ b : Bar, df = [b] → b.Close ≠ 0 →
          calculate_return_new df = some 0) := by
  refine ⟨?_, ?_, ?_, ?_, ?_⟩
  · rcases h with h | h
    · simp [calculate_return, h]
    · by_cases hlt : df.length < 2
      · simp [calculate_return, hlt]
      · simp [calculate_return, hlt, h]
  · rcases h with h | h
    · simp [calculate_return_ui, h]
    · by_cases hlt : df.length < 2
      · simp [calculate_return_ui, hlt]
      · simp [calculate_return_ui, hlt, h]
  · intro hdf; simp [hdf, calculate_return_new]
  · intro h0 hne
    cases df with
    | nil => exact absurd rfl hne
    | cons b rest =>
      have hb : b.Close = 0 := h0
      simp [calculate_return_new, hb]
  · intro b hdf hb
    subst hdf
    simp [calculate_return_new, lastClose, hb]

/-- Witness for C4 (amended) at the empty series. -/
theorem calculate_return_soft_zero_witness :
    calculate_return [] = some 0 ∧ calculate_return_new [] = none := by
  have h := calculate_return_soft_zero [] (Or.inl (by decide))
  exact ⟨h.1, h.2.2.1 rfl⟩

/-!
## Raw multi-instrument dataset and the extractor

`yf.download(..., group_by="ticker")` returns either a MultiIndex frame keyed
by ticker or a flat single-ticker frame.  A cell of a raw table is either a
numeric value or not-a-number (`pd.to_numeric(errors="coerce")` maps any
non-numeric entry to NaN, and `dropna()` then removes the row).
-/

/-- A raw table cell after the provider download: numeric, or missing /
non-numeric (which `pd.to_numeric(errors="coerce")` turns into NaN). -/
inductive Cell
  | num (q : ℚ)
  | nan
deriving DecidableEq, Repr

/-- A raw per-instrument table: named columns and rows of cells aligned with
the column list. -/
structure RawTable where
  cols : List String
  rows : List (List Cell)
deriving DecidableEq, Repr

/-- The bulk download result: keyed by ticker (MultiIndex columns) or a flat
single-instrument table. -/
inductive RawData
  | multi (tables : List (String × RawTable))
  | flat (t : RawTable)
deriving DecidableEq, Repr

/-- The numeric value of `row` at column `c` of table `t`, or `none` when the
column is absent or the cell is not numeric. -/
def numAt (t : RawTable) (row : List Cell) (c : String) : Option ℚ :=
  match t.cols.findIdx? (fun x => x = c) with
  | none => none
  | some i =>
    match row.getD i Cell.nan with
    | Cell.num q => some q
    | Cell.nan => none

/-- main.py / main_ui.py row cleaning: select the five OHLCV columns, coerce
to numeric, and drop the row if any selected cell is NaN. -/
def rowBar (t : RawTable) (row : List Cell) : Option Bar := do
  let o ← numAt t row "Open"
  let h ← numAt t row "High"
  let l ← numAt t row "Low"
  let c ← numAt t row "Close"
  let v ← numAt t row "Volume"
  pure ⟨o, h, l, c, v⟩

/-- new.py row cleaning: only the four OHLC columns are selected (Volume is
not in new.py's required list); the unselected `Volume` field of the
embedded bar is set to 0. -/
def rowBarNew (t : RawTable) (row : List Cell) : Option Bar := do
  let o ← numAt t row "Open"
  let h ← numAt t row "High"
  let l ← numAt t row "Low"
  let c ← numAt t row "Close"
  pure ⟨o, h, l, c, 0⟩

/-- The required columns of main.py / main_ui.py. -/
def requiredCols : List String := ["Open", "High", "Low", "Close", "Volume"]

/-- The required columns of new.py. -/
def requiredColsNew : List String := ["Open", "High", "Low", "Close"]

/-- Table selection common to all copies: index the MultiIndex frame by the
ticker (a missing ticker raises `KeyError`, caught by the extractor giving
`None`), or use a flat frame directly. -/
def tableFor (raw : RawData) (sym : String) : Option RawTable :=
  match raw with
  | .multi tabs => (tabs.find? (fun p => p.1 = sym)).map Prod.snd
  | .flat t => some t

/-- main.py `get_single_symbol_df_from_raw` (lines 78-98): select the table,
check the five required columns, coerce-and-drop rows, and return `None` for
an absent ticker, a missing column, or an empty result. -/
def get_single_symbol_df_from_raw (raw : RawData) (sym : String) :
    Option (List Bar) :=
  match tableFor raw sym with
  | none => none
  | some t =>
    if requiredCols.all (fun c => t.cols.contains c) then
      let df := t.rows.filterMap (rowBar t)
      if df.isEmpty then none else some df
    else none

/-- new.py `get_single_symbol_df_from_raw` (lines 79-101): identical shape
but with only the four OHLC required columns. -/
def get_single_symbol_df_from_raw_new (raw : RawData) (sym : String) :
    Option (List Bar) :=
  match tableFor raw sym with
  | none => none
  | some t =>
    if requiredColsNew.all (fun c => t.cols.contains c) then
      let df := t.rows.filterMap (rowBarNew t)
      if df.isEmpty then none else some df
    else none

/-- Both extractors share the same selection / column check / clean / empty
check shape; any returned series is non-empty. -/
theorem extract_shape_ne_nil (req : List String)
    (rb : RawTable → List Cell → Option Bar) (o : Option RawTable)
    (df : List Bar)
    (h : (match o with
          | none => none
          | some t =>
            if req.all (fun c => t.cols.contains c) then
              let d := t.rows.filterMap (rb t)
              if d.isEmpty then none else some d
            else none) = some df) : df ≠ [] := by
  cases o with
  | none => exact absurd h (by simp)
  | some t =>
    dsimp only at h
    by_cases hcols : req.all (fun c => t.cols.contains c)
    · rw [if_pos hcols] at h
      by_cases hemp : (t.rows.filterMap (rb t)).isEmpty
      · rw [if_pos hemp] at h; exact absurd h (by simp)
      · rw [if_neg hemp] at h
        cases Option.some.inj h
        intro hnil
        rw [hnil] at hemp
        exact hemp rfl
    · rw [if_neg hcols] at h; exact absurd h (by simp)

/-- C7: the extractor returns `None` (never raises — it is a total function
into `Option`) when the identifier is not in the keyed dataset, when a
required column is missing, or when no valid row survives cleaning; and
whenever it returns a series, the series is non-empty.  Stated for both the
main.py and the new.py copy. -/
theorem extract_absent_or_nonempty (tabs : List (String × RawTable))
    (raw : RawData) (sym : String) (t : RawTable)
    (habsent : tabs.find? (fun p => p.1 = sym) = none) :
    get_single_symbol_df_from_raw (.multi tabs) sym = none
      ∧ get_single_symbol_df_from_raw_new (.multi tabs) sym = none
      ∧ (tableFor raw sym = some t →
          (¬ (∀ c ∈ requiredCols, t.cols.contains c) →
            get_single_symbol_df_from_raw raw sym = none)
          ∧ (¬ (∀ c ∈ requiredColsNew, t.cols.contains c) →
            get_single_symbol_df_from_raw_new raw sym = none)
          ∧ (t.rows.filterMap (rowBar t) = [] →
            get_single_symbol_df_from_raw raw sym = none)
          ∧ (t.rows.filterMap (rowBarNew t) = [] →
            get_single_symbol_df_from_raw_new raw sym = none))
      ∧ (∀ df : List Bar,
          get_single_symbol_df_from_raw raw sym = some df → df ≠ [])
      ∧ (∀ df : List Bar,
          get_single_symbol_df_from_raw_new raw sym = some df → df ≠ []) := by
  refine ⟨?_, ?_, ?_, ?_, ?_⟩
  · simp [get_single_symbol_df_from_raw, tableFor, habsent]
  · simp [get_single_symbol_df_from_raw_new, tableFor, habsent]
  · intro ht
    refine ⟨?_, ?_, ?_, ?_⟩
    · intro hmiss
      simp only [get_single_symbol_df_from_raw, ht]
      exact if_neg (fun hallb => hmiss (List.all_eq_true.mp hallb))
    · intro hmiss
      simp only [get_single_symbol_df_from_raw_new, ht]
      exact if_neg (fun hallb => hmiss (List.all_eq_true.mp hallb))
    · intro hempty
      simp only [get_single_symbol_df_from_raw, ht, hempty, List.isEmpty_nil,
        if_true]
      exact ite_self none
    · intro hempty
      simp only [get_single_symbol_df_from_raw_new, ht, hempty,
        List.isEmpty_nil, if_true]
      exact ite_self none
  · intro df hdf
    exact extract_shape_ne_nil requiredCols rowBar (tableFor raw sym) df hdf
  · intro df hdf
    exact extract_shape_ne_nil requiredColsNew rowBarNew (tableFor raw sym)
      df hdf

/-- Witness for C7: a dataset holding only ticker AAPL; the lookup of MSFT
returns `None`, and a flat table missing the `Close` column returns `None`. -/
theorem extract_absent_or_nonempty_witness :
    get_single_symbol_df_from_raw
        (.multi [("AAPL", ⟨requiredCols, []⟩)]) "MSFT" = none
      ∧ get_single_symbol_df_from_raw
        (.flat ⟨["Open", "High", "Low"], []⟩) "MSFT" = none := by
  have h := extract_absent_or_nonempty [("AAPL", ⟨requiredCols, []⟩)]
    (.flat ⟨["Open", "High", "Low"], []⟩) "MSFT"
    ⟨["Open", "High", "Low"], []⟩ (by decide)
  refine ⟨h.1, ?_⟩
  exact (h.2.2.1 rfl).1 (by decide)

/-!
## Symbol loader
-/

/-- Python's `str.upper()`, modelled as the character-wise ASCII upcase (the
symbol files hold ASCII tickers). -/
def upperStr (s : String) : String :=
  String.mk (s.data.map Char.toUpper)

/-- The dedup loop of `read_csv_and_get_symbols`: uppercase each stripped
symbol, keep only first occurrences (`seen` is the set of already-kept
uppercased symbols). -/
def dedupe_upper : List String → List String → List String
  | [], _ => []
  | s :: rest, seen =>
    let u := upperStr s
    if u ∈ seen then dedupe_upper rest seen
    else u :: dedupe_upper rest (u :: seen)

/-- Python's `l[:n]` slice: a non-negative bound takes the first `n`
elements; a negative bound drops the last `|n|` elements (empty when `|n|`
reaches the length). -/
def pySliceTo (l : List String) (n : ℤ) : List String :=
  if 0 ≤ n then l.take n.toNat else l.take (l.length - (-n).toNat)

/-- `read_csv_and_get_symbols` (main.py lines 49-65): the `Symbol` column is
modelled as an optional list of stripped strings (`none` = read failure or
missing column, where the `except` handler returns `[]`); otherwise the
cleaned, deduplicated list is capped by the Python slice `cleaned[:limit]`. -/
def read_csv_and_get_symbols (syms? : Option (List String)) (limit : ℤ) :
    List String :=
  match syms? with
  | none => []
  | some syms => pySliceTo (dedupe_upper syms []) limit

theorem dedupe_upper_nodup (l : List String) :
    ∀ seen : List String,
      (dedupe_upper l seen).Nodup
        ∧ ∀ x ∈ dedupe_upper l seen, x ∉ seen := by
  induction l with
  | nil => intro seen; simp [dedupe_upper]
  | cons s rest ih =>
    intro seen
    by_cases hmem : upperStr s ∈ seen
    · simpa [dedupe_upper, hmem] using ih seen
    · have h := ih (upperStr s :: seen)
      refine ⟨?_, ?_⟩
      · simp only [dedupe_upper, hmem, if_false, List.nodup_cons]
        refine ⟨fun hx => ?_, h.1⟩
        have := h.2 _ hx
        simp at this
      · intro x hx
        simp only [dedupe_upper, hmem, if_false, List.mem_cons] at hx
        rcases hx with hx | hx
        · subst hx; exact hmem
        · have := h.2 x hx
          intro hc
          exact this (List.mem_cons_of_mem _ hc)

/-- C10: the loader uppercases and deduplicates first and applies the cap
last.  For `n ≥ 0` the result is the first `min n d` unique uppercased
symbols in first-occurrence order (where `d` is the number of distinct
uppercased symbols); for `n < 0` Python slice semantics silently keep all
unique symbols except the last `|n|` (clamped at the empty list).  The result
never repeats an identifier. -/
theorem read_csv_cap_semantics (syms : List String) (n : ℤ) :
    (0 ≤ n → read_csv_and_get_symbols (some syms) n
        = (dedupe_upper syms []).take n.toNat
      ∧ (read_csv_and_get_symbols (some syms) n).length
        = min n.toNat (dedupe_upper syms []).length)
    ∧ (n < 0 → read_csv_and_get_symbols (some syms) n
        = (dedupe_upper syms []).take
            ((dedupe_upper syms []).length - (-n).toNat))
    ∧ (read_csv_and_get_symbols (some syms) n).Nodup := by
  refine ⟨?_, ?_, ?_⟩
  · intro hn
    constructor
    · simp [read_csv_and_get_symbols, pySliceTo, hn]
    · simp [read_csv_and_get_symbols, pySliceTo, hn, List.length_take,
        Nat.min_comm]
  · intro hn
    have : ¬ (0 : ℤ) ≤ n := by omega
    simp [read_csv_and_get_symbols, pySliceTo, this]
  · have hnd : (dedupe_upper syms []).Nodup := (dedupe_upper_nodup syms []).1
    have htake : ∀ k : ℕ, ((dedupe_upper syms []).take k).Nodup :=
      fun k => List.Nodup.sublist (List.take_sublist k _) hnd
    by_cases hn : (0 : ℤ) ≤ n
    · simpa [read_csv_and_get_symbols, pySliceTo, hn] using htake n.toNat
    · simpa [read_csv_and_get_symbols, pySliceTo, hn] using
        htake ((dedupe_upper syms []).length - (-n).toNat)

/-- Witness for C10: symbols `[aapl, AAPL, msft]` dedupe to `[AAPL, MSFT]`;
the cap 1 keeps the first, and the negative cap −1 drops the last. -/
theorem read_csv_cap_semantics_witness :
    read_csv_and_get_symbols (some ["aapl", "AAPL", "msft"]) 1 = ["AAPL"]
      ∧ read_csv_and_get_symbols (some ["aapl", "AAPL", "msft"]) (-1)
        = ["AAPL"] := by
  constructor
  · rw [(read_csv_cap_semantics ["aapl", "AAPL", "msft"] 1).1 (by decide) |>.1]
    decide
  · rw [(read_csv_cap_semantics ["aapl", "AAPL", "msft"] (-1)).2.1 (by decide)]
    decide

/-!
## Return records, the ranking sort and rank assignment
-/

/-- A return record: `(sym, ret, df_chart)` as appended to `results`. -/
structure ReturnRec where
  sym : String
  ret : ℚ
  chart : List Bar
deriving DecidableEq, Repr

/-- The comparison underlying `results.sort(key=lambda x: x[1],
reverse=True)`: descending by percentage return. -/
def retDesc (a b : ReturnRec) : Bool :=
  decide (b.ret ≤ a.ret)

/-- `results.sort(key=lambda x: x[1], reverse=True)`: Python's `list.sort`
is a stable sort; with `reverse=True` it orders by key descending while
preserving the input order of equal keys.  Embedded as the stable
`mergeSort` under the total preorder `retDesc`. -/
def sortRanked (l : List ReturnRec) : List ReturnRec :=
  l.mergeSort retDesc

theorem retDesc_trans (a b c : ReturnRec) :
    retDesc a b → retDesc b c → retDesc a c := by
  simp only [retDesc, decide_eq_true_eq]
  exact fun h1 h2 => le_trans h2 h1

theorem retDesc_total (a b : ReturnRec) : retDesc a b || retDesc b a := by
  simp only [retDesc, Bool.or_eq_true, decide_eq_true_eq]
  exact le_total b.ret a.ret

/-- C5: the ranking sort orders the records by percentage return descending,
is a permutation of its input, and is stable: for every return value `q`,
the records with return `q` appear in the output in exactly their input
order. -/
theorem sortRanked_stable_desc (l : List ReturnRec) :
    (sortRanked l).Pairwise (fun a b => b.ret ≤ a.ret)
      ∧ (sortRanked l).Perm l
      ∧ ∀ q : ℚ, (sortRanked l).filter (fun r => r.ret = q)
          = l.filter (fun r => r.ret = q) := by
  refine ⟨?_, List.mergeSort_perm l retDesc, ?_⟩
  · have h := List.sorted_mergeSort retDesc_trans retDesc_total l
    exact h.imp (fun hab => by simpa [retDesc] using hab)
  · intro q
    set p : ReturnRec → Bool := fun r => r.ret = q with hp
    have hpair : (l.filter p).Pairwise (fun a b => retDesc a b) := by
      apply List.pairwise_of_forall_mem_list
      intro a ha b hb
      have ha' : a.ret = q := by
        have := List.of_mem_filter ha
        simpa [hp] using this
      have hb' : b.ret = q := by
        have := List.of_mem_filter hb
        simpa [hp] using this
      simp [retDesc, ha', hb']
    have hsub : List.Sublist (l.filter p) (sortRanked l) :=
      List.sublist_mergeSort retDesc_trans retDesc_total hpair
        (List.filter_sublist l)
    have hsub2 : List.Sublist (l.filter p) ((sortRanked l).filter p) := by
      have h2 := hsub.filter p
      rwa [List.filter_filter, (by
        funext a
        cases hpa : p a <;> simp [hpa] : (fun a => p a && p a) = p)] at h2
    have hperm : ((sortRanked l).filter p).Perm (l.filter p) :=
      (List.mergeSort_perm l retDesc).filter p
    exact (hsub2.eq_of_length hperm.length_eq.symm).symm

/-- `enumerate(results, start=1)`: pair each post-sort position (1-based)
with its record. -/
def assign_ranks (l : List ReturnRec) : List (ℕ × ReturnRec) :=
  l.enum.map (fun p => (p.1 + 1, p.2))

/-- The per-symbol processing loop: each requested symbol contributes at
most one record (dropped when extraction or return calculation fails). -/
def build_results (symbols : List String)
    (outcome : String → Option (ℚ × List Bar)) : List ReturnRec :=
  symbols.filterMap
    (fun s => (outcome s).map (fun pr => ⟨s, pr.1, pr.2⟩))

theorem assign_ranks_map_fst (X : List ReturnRec) :
    (assign_ranks X).map Prod.fst = List.range' 1 X.length := by
  have h : (assign_ranks X).map Prod.fst
      = (List.range X.length).map (fun x => 1 + x) := by
    rw [← List.enum_map_fst X, assign_ranks, List.map_map, List.map_map]
    apply List.map_congr_left
    intro a _
    simp [Function.comp]
    omega
  rw [h, List.range'_eq_map_range]

theorem assign_ranks_map_snd (X : List ReturnRec) :
    (assign_ranks X).map Prod.snd = X := by
  rw [assign_ranks, List.map_map]
  have h : (Prod.snd ∘ fun p : ℕ × ReturnRec => (p.1 + 1, p.2))
      = Prod.snd := by
    funext p; rfl
  rw [h, List.enum_map_snd]

theorem build_results_syms_sublist (symbols : List String)
    (outcome : String → Option (ℚ × List Bar)) :
    List.Sublist ((build_results symbols outcome).map ReturnRec.sym)
      symbols := by
  induction symbols with
  | nil => simp [build_results]
  | cons s rest ih =>
    cases h : outcome s with
    | none =>
      simp only [build_results, List.filterMap_cons, h, Option.map_none]
      exact (ih).cons s
    | some pr =>
      simp only [build_results, List.filterMap_cons, h, Option.map_some,
        List.map_cons]
      exact (ih).cons₂ s

/-- C6: after sorting, `enumerate(results, start=1)` assigns exactly the
dense ranks `1..k` (`k` records surviving extraction), and when the
requested symbols are distinct no identifier appears twice in the ranked
list. -/
theorem ranks_dense (symbols : List String)
    (outcome : String → Option (ℚ × List Bar))
    (hnodup : symbols.Nodup) :
    (assign_ranks (sortRanked (build_results symbols outcome))).map Prod.fst
        = List.range' 1
            (assign_ranks (sortRanked (build_results symbols outcome))).length
      ∧ ((assign_ranks (sortRanked (build_results symbols outcome))).map
          (fun p => p.2.sym)).Nodup := by
  set res := build_results symbols outcome with hres
  constructor
  · have hlen : (assign_ranks (sortRanked res)).length
        = (sortRanked res).length := by
      simp [assign_ranks]
    rw [hlen]
    exact assign_ranks_map_fst (sortRanked res)
  · have h2 : (assign_ranks (sortRanked res)).map (fun p => p.2.sym)
        = (sortRanked res).map ReturnRec.sym := by
      have hc : (assign_ranks (sortRanked res)).map (fun p => p.2.sym)
          = ((assign_ranks (sortRanked res)).map Prod.snd).map
              ReturnRec.sym := by
        rw [List.map_map]
        rfl
      rw [hc, assign_ranks_map_snd]
    rw [h2]
    have hsyms : (res.map ReturnRec.sym).Nodup :=
      List.Nodup.sublist (build_results_syms_sublist symbols outcome) hnodup
    exact ((List.mergeSort_perm res retDesc).map ReturnRec.sym).symm.nodup
      hsyms

/-- Witness for C6 on the spec's Scenario A/B shape: three symbols, one of
which (BBB) fails extraction; the ranked list carries ranks 1, 2 with
distinct identifiers. -/
theorem ranks_dense_witness :
    (assign_ranks (sortRanked (build_results ["AAA", "BBB", "CCC"]
        (fun s => if s = "BBB" then none
          else if s = "AAA" then some (20, [])
          else some (0, []))))).map Prod.fst = [1, 2] := by
  have h := ranks_dense ["AAA", "BBB", "CCC"]
    (fun s => if s = "BBB" then none
      else if s = "AAA" then some (20, [])
      else some (0, [])) (by decide)
  rw [h.1]
  have hlen : (assign_ranks (sortRanked (build_results ["AAA", "BBB", "CCC"]
      (fun s => if s = "BBB" then none
        else if s = "AAA" then some (20, [])
        else some (0, []))))).length = 2 := by
    simp only [assign_ranks, List.length_map, List.enum_length, sortRanked]
    rw [(List.mergeSort_perm _ retDesc).length_eq]
    decide
  rw [hlen]
  rfl

/-!
## Parallel chart renderer

`mpf.plot` (writing the image file) is the abstract collaborator: it either
succeeds or raises, modelled as `plot : ReturnRec → Except String Unit`.
In main.py / new.py each submitted task runs `save_candlestick_chart`, which
catches every exception and returns a tagged `(ok, info)` pair; the
`as_completed` loop then observes the futures in a nondeterministic
completion order — any permutation of the submitted tasks — and appends each
outcome to `created_files` or `failed_charts`.  In main_ui.py the renders run
through `list(ex.map(...))` with a `save_candlestick_chart` that catches
nothing, so the first raising task re-raises out of the iteration.
-/

/-- A submitted render task together with its computed outcome. -/
structure Task where
  sym : String
  rank : ℕ
  ok : Bool
  info : String
deriving DecidableEq, Repr

/-- `f"{rank:03d}"`: zero-pad to at least three digits. -/
def pad3 (n : ℕ) : String :=
  let s := toString n
  if s.length < 3 then String.mk (List.replicate (3 - s.length) '0') ++ s
  else s

/-- `os.path.join(out_folder, f"{rank:03d}_{symbol}.png")`. -/
def chartPath (out : String) (rank : ℕ) (s : String) : String :=
  out ++ "/" ++ pad3 rank ++ "_" ++ s ++ ".png"

/-- main.py / new.py `save_candlestick_chart`: computes the target path,
invokes the plotting collaborator and catches every exception, returning
`(True, fname)` or `(False, str(e))`. -/
def save_candlestick_chart (plot : ReturnRec → Except String Unit)
    (out : String) (rank : ℕ) (r : ReturnRec) : Bool × String :=
  match plot r with
  | .ok _ => (true, chartPath out rank r.sym)
  | .error e => (false, e)

/-- The `ex.submit` fan-out of main.py / new.py: one task per ranked record,
rank `i+1` for the record at 0-based post-sort position `i`. -/
def submit_tasks (plot : ReturnRec → Except String Unit) (out : String)
    (results : List ReturnRec) : List Task :=
  results.enum.map (fun p =>
    let res := save_candlestick_chart plot out (p.1 + 1) p.2
    ⟨p.2.sym, p.1 + 1, res.1, res.2⟩)

/-- Body of the `as_completed` loop: append the path to `created_files` on
success, `(sym, err)` to `failed_charts` on failure. -/
def collectStep (acc : List String × List (String × String)) (t : Task) :
    List String × List (String × String) :=
  if t.ok then (acc.1 ++ [t.info], acc.2)
  else (acc.1, acc.2 ++ [(t.sym, t.info)])

/-- The full `as_completed` collection loop over the completed tasks,
observed in (nondeterministic) completion order. -/
def collect_outcomes (done : List Task) :
    List String × List (String × String) :=
  done.foldl collectStep ([], [])

/-- main_ui.py `save_candlestick_chart` (lines 85-91): no `try/except`; a
plotting exception propagates to the caller. -/
def save_candlestick_chart_ui (plot : ReturnRec → Except String Unit)
    (out : String) (rank : ℕ) (r : ReturnRec) :
    Except String (Bool × String) :=
  match plot r with
  | .ok _ => .ok (true, chartPath out rank r.sym)
  | .error e => .error e

/-- Sequencing of fallible per-item calls: the first raised exception aborts
and propagates; otherwise all outcomes are produced in order. -/
def exceptMap {α β : Type} (f : α → Except String β) :
    List α → Except String (List β)
  | [] => .ok []
  | a :: rest =>
    match f a with
    | .error e => .error e
    | .ok b =>
      match exceptMap f rest with
      | .error e => .error e
      | .ok bs => .ok (b :: bs)

/-- main_ui.py `list(ex.map(...))` (lines 162-164): outcomes in submission
order, aborting with the first raised exception, which propagates to
`run_backend_processing`'s blanket handler. -/
def render_all_ui (plot : ReturnRec → Except String Unit) (out : String)
    (results : List ReturnRec) : Except String (List (Bool × String)) :=
  exceptMap (fun p => save_candlestick_chart_ui plot out (p.1 + 1) p.2)
    results.enum

theorem collect_outcomes_aux (done : List Task) :
    ∀ acc : List String × List (String × String),
      done.foldl collectStep acc
        = (acc.1 ++ (done.filter (fun t => t.ok)).map Task.info,
           acc.2 ++ (done.filter (fun t => !t.ok)).map
             (fun t => (t.sym, t.info))) := by
  induction done with
  | nil => intro acc; simp
  | cons t rest ih =>
    intro acc
    cases ht : t.ok <;>
      simp [collectStep, ht, ih, List.append_assoc]

theorem collect_outcomes_spec (done : List Task) :
    collect_outcomes done
      = ((done.filter (fun t => t.ok)).map Task.info,
         (done.filter (fun t => !t.ok)).map (fun t => (t.sym, t.info))) := by
  simpa using collect_outcomes_aux done ([], [])

theorem exists_error_exceptMap {α β : Type} (f : α → Except String β) :
    ∀ l : List α, (∃ a ∈ l, ∃ e, f a = Except.error e) →
      ∃ e, exceptMap f l = Except.error e := by
  intro l
  induction l with
  | nil => intro h; simp at h
  | cons a rest ih =>
    intro h
    cases hfa : f a with
    | error e => exact ⟨e, by simp [exceptMap, hfa]⟩
    | ok b =>
      rcases h with ⟨x, hx, e, hfe⟩
      rcases List.mem_cons.mp hx with rfl | hx2
      · rw [hfa] at hfe; cases hfe
      · rcases ih ⟨x, hx2, e, hfe⟩ with ⟨e2, he2⟩
        exact ⟨e2, by simp [exceptMap, hfa, he2]⟩

/-- C1 counterexample: in main_ui.py the renderer collects NO outcomes when
one render raises: with two records where only the first record's render
raises, `list(ex.map(...))` aborts with that exception even though the
second record's render succeeds in isolation. -/
theorem render_ui_drops_other_outcomes :
    render_all_ui (fun r => if r.sym = "AAA" then .error "boom" else .ok ())
        "graph" [⟨"AAA", 1, []⟩, ⟨"BBB", 2, []⟩]
      = Except.error "boom"
    ∧ save_candlestick_chart_ui
        (fun r => if r.sym = "AAA" then .error "boom" else .ok ())
        "graph" 2 ⟨"BBB", 2, []⟩
      = Except.ok (true, chartPath "graph" 2 "BBB") := by
  exact ⟨rfl, rfl⟩

/-- C1 amended: in main.py and new.py, `save_candlestick_chart` catches
every exception and the `as_completed` loop collects one outcome per
submitted task in any completion order, so one record's failure never
suppresses another record's success: every record whose render succeeds has
its path in `created_files`, and every failing record contributes its
`(symbol, reason)` to `failed_charts`.  In main_ui.py, by contrast, whenever
any record's render raises, the `ex.map` collection aborts with that
exception and no outcome list is produced. -/
theorem render_failure_isolated (plot : ReturnRec → Except String Unit)
    (out : String) (results : List ReturnRec) (done : List Task)
    (hperm : done.Perm (submit_tasks plot out results)) :
    (∀ p ∈ results.enum,
      (plot p.2 = Except.ok () →
        chartPath out (p.1 + 1) p.2.sym ∈ (collect_outcomes done).1)
      ∧ (∀ e, plot p.2 = Except.error e →
        (p.2.sym, e) ∈ (collect_outcomes done).2))
    ∧ ∀ (plot2 : ReturnRec → Except String Unit)
        (results2 : List ReturnRec),
        (∃ p ∈ results2.enum, ∃ e, plot2 p.2 = Except.error e) →
        ∃ e2, render_all_ui plot2 out results2 = Except.error e2 := by
  constructor
  · intro p hp
    have hmem : (⟨p.2.sym, p.1 + 1,
        (save_candlestick_chart plot out (p.1 + 1) p.2).1,
        (save_candlestick_chart plot out (p.1 + 1) p.2).2⟩ : Task)
        ∈ done := by
      rw [hperm.mem_iff]
      exact List.mem_map.mpr ⟨p, hp, rfl⟩
    rw [collect_outcomes_spec]
    constructor
    · intro hok
      have hsave : save_candlestick_chart plot out (p.1 + 1) p.2
          = (true, chartPath out (p.1 + 1) p.2.sym) := by
        simp [save_candlestick_chart, hok]
      rw [hsave] at hmem
      exact List.mem_map.mpr
        ⟨_, List.mem_filter.mpr ⟨hmem, rfl⟩, rfl⟩
    · intro e herr
      have hsave : save_candlestick_chart plot out (p.1 + 1) p.2
          = (false, e) := by
        simp [save_candlestick_chart, herr]
      rw [hsave] at hmem
      exact List.mem_map.mpr
        ⟨_, List.mem_filter.mpr ⟨hmem, rfl⟩, rfl⟩
  · intro plot2 results2 ⟨p, hp, e, he⟩
    apply exists_error_exceptMap
    exact ⟨p, hp, e, by simp [save_candlestick_chart_ui, he]⟩

/-- Witness for C1 (amended): one succeeding record AAA and one failing
record BBB, completed in reversed order; AAA's path is collected and BBB's
failure reason is collected. -/
theorem render_failure_isolated_witness :
    chartPath "g" 1 "AAA" ∈
      (collect_outcomes ((submit_tasks
        (fun r => if r.sym = "BBB" then .error "disk full" else .ok ())
        "g" [⟨"AAA", 5, []⟩, ⟨"BBB", 3, []⟩]).reverse)).1
    ∧ ("BBB", "disk full") ∈
      (collect_outcomes ((submit_tasks
        (fun r => if r.sym = "BBB" then .error "disk full" else .ok ())
        "g" [⟨"AAA", 5, []⟩, ⟨"BBB", 3, []⟩]).reverse)).2 := by
  have h := render_failure_isolated
    (fun r => if r.sym = "BBB" then .error "disk full" else .ok ())
    "g" [⟨"AAA", 5, []⟩, ⟨"BBB", 3, []⟩]
    ((submit_tasks
      (fun r => if r.sym = "BBB" then .error "disk full" else .ok ())
      "g" [⟨"AAA", 5, []⟩, ⟨"BBB", 3, []⟩]).reverse)
    (List.reverse_perm _)
  refine ⟨?_, ?_⟩
  · exact (h.1 (0, ⟨"AAA", 5, []⟩) (by decide)).1 rfl
  · exact (h.1 (1, ⟨"BBB", 3, []⟩) (by decide)).2 "disk full" rfl

/-- C2 counterexample: in main_ui.py a raising render leaves NO pair of
outcome lists at all — the fan-out aborts with the exception instead of a
partition of the two submitted records. -/
theorem render_ui_no_partition :
    render_all_ui (fun r => if r.sym = "CCC" then .error "io error"
        else .ok ())
        "graph" [⟨"CCC", 1, []⟩, ⟨"DDD", 2, []⟩]
      = Except.error "io error" := by
  rfl

theorem submit_tasks_map_sym (plot : ReturnRec → Except String Unit)
    (out : String) (results : List ReturnRec) :
    (submit_tasks plot out results).map Task.sym
      = results.map ReturnRec.sym := by
  rw [submit_tasks, List.map_map]
  have h : (Task.sym ∘ fun p : ℕ × ReturnRec =>
      let res := save_candlestick_chart plot out (p.1 + 1) p.2
      (⟨p.2.sym, p.1 + 1, res.1, res.2⟩ : Task))
      = (ReturnRec.sym ∘ Prod.snd) := by
    funext p; rfl
  rw [h, ← List.map_map, List.enum_map_snd]

/-- C2 amended: for main.py and new.py, over every completion order the
collected lists partition the `N` submitted records:
`len(created_files) + len(failed_charts) = N`, `created_files` consists of
exactly the paths of the succeeding tasks, and, when the record identifiers
are distinct, each identifier is carried by exactly one collected outcome
(its task is counted once across the succeeding tasks and the failed list).
main_ui.py produces no such partition (see the counterexample). -/
theorem outcomes_partition (plot : ReturnRec → Except String Unit)
    (out : String) (results : List ReturnRec) (done : List Task)
    (hperm : done.Perm (submit_tasks plot out results))
    (hnodup : (results.map ReturnRec.sym).Nodup) :
    (collect_outcomes done).1.length + (collect_outcomes done).2.length
        = results.length
    ∧ (collect_outcomes done).1
        = (done.filter (fun t => t.ok)).map Task.info
    ∧ ∀ s ∈ results.map ReturnRec.sym,
        ((done.filter (fun t => t.ok)).map Task.sym).count s
          + ((collect_outcomes done).2.map Prod.fst).count s = 1 := by
  have hspec := collect_outcomes_spec done
  have hsymperm : (done.map Task.sym).Perm (results.map ReturnRec.sym) := by
    have h1 := hperm.map Task.sym
    rwa [submit_tasks_map_sym] at h1
  refine ⟨?_, ?_, ?_⟩
  · rw [hspec]
    simp only [List.length_map]
    have hsplit := (List.filter_append_perm (fun t => t.ok) done).length_eq
    rw [List.length_append] at hsplit
    rw [hsplit]
    rw [hperm.length_eq]
    simp [submit_tasks]
  · rw [hspec]
  · intro s hs
    have hone : (results.map ReturnRec.sym).count s = 1 :=
      List.count_eq_one_of_mem hnodup hs
    have hcnt : (done.map Task.sym).count s = 1 := by
      rw [hsymperm.count_eq, hone]
    have hsplit : ((done.filter (fun t => t.ok)).map Task.sym).count s
        + ((done.filter (fun t => !t.ok)).map Task.sym).count s
        = (done.map Task.sym).count s := by
      have hap := ((List.filter_append_perm (fun t => t.ok) done).map
        Task.sym).count_eq s
      rw [List.map_append, List.count_append] at hap
      exact hap
    have hfst : ((collect_outcomes done).2.map Prod.fst)
        = (done.filter (fun t => !t.ok)).map Task.sym := by
      rw [hspec]
      rw [List.map_map]
      rfl
    rw [hfst, hsplit, hcnt]

/-- Witness for C2 (amended): two records, one failing render, completed in
reversed order: 1 created path plus 1 failure covers both submissions, and
each identifier is counted exactly once. -/
theorem outcomes_partition_witness :
    ((collect_outcomes ((submit_tasks
        (fun r => if r.sym = "FFF" then .error "no space" else .ok ())
        "g" [⟨"EEE", 7, []⟩, ⟨"FFF", 1, []⟩]).reverse)).1.length
      + (collect_outcomes ((submit_tasks
        (fun r => if r.sym = "FFF" then .error "no space" else .ok ())
        "g" [⟨"EEE", 7, []⟩, ⟨"FFF", 1, []⟩]).reverse)).2.length = 2)
    ∧ (((submit_tasks
        (fun r => if r.sym = "FFF" then .error "no space" else .ok ())
        "g" [⟨"EEE", 7, []⟩, ⟨"FFF", 1, []⟩]).reverse.filter
          (fun t => t.ok)).map Task.sym).count "EEE"
      + ((collect_outcomes ((submit_tasks
        (fun r => if r.sym = "FFF" then .error "no space" else .ok ())
        "g" [⟨"EEE", 7, []⟩, ⟨"FFF", 1, []⟩]).reverse)).2.map
          Prod.fst).count "EEE" = 1 := by
  have h := outcomes_partition
    (fun r => if r.sym = "FFF" then .error "no space" else .ok ())
    "g" [⟨"EEE", 7, []⟩, ⟨"FFF", 1, []⟩]
    ((submit_tasks
      (fun r => if r.sym = "FFF" then .error "no space" else .ok ())
      "g" [⟨"EEE", 7, []⟩, ⟨"FFF", 1, []⟩]).reverse)
    (List.reverse_perm _) (by decide)
  exact ⟨h.1, h.2.2 "EEE" (by decide)⟩

/-!
## Pipeline effect traces

`main()` (main.py, new.py) and `run_backend_processing` (main_ui.py) are
sequences of validations, filesystem operations and collaborator calls; we
record the externally visible steps each run performs, in order, as a list
of effects.  The interactive prompts preceding the lookback check are
abstracted to boolean validity flags (an invalid prompt aborts before
anything else happens); the collaborator outcomes (CSV contents, fetch
success) are an environment.
-/

/-- Externally visible pipeline steps. -/
inductive Effect
  | configError
  | runError
  | readCsv
  | fetchAnalysis
  | fetchChart
  | fetchData
  | prepareOutDir
  | renderCharts
  | report
deriving DecidableEq, Repr

/-- main.py `VALID_LOOKBACK_PERIODS` (lines 154-156). -/
def VALID_LOOKBACK_PERIODS : List (String × ℕ) :=
  [("1m", 7), ("2m", 60), ("5m", 60), ("15m", 60), ("30m", 60), ("1h", 730)]

/-- main.py lines 178-181: `max_lookback_days = dict.get(chart_interval)`,
then (when truthy) `chart_start_date_dt < now - timedelta(days=m)`, i.e. the
chart window reaches back more than `m` days. -/
def lookbackViolated (interval : String) (daysBack : ℚ) : Bool :=
  match (VALID_LOOKBACK_PERIODS.find? (fun p => p.1 = interval)).map
      Prod.snd with
  | some m => if m ≠ 0 then decide ((m : ℚ) < daysBack) else false
  | none => false

/-- The prompt-derived run configuration of main.py's `main()`.  The prompts
before the lookback check are abstracted to validity flags: an invalid
country / stock count / duration aborts immediately. -/
structure MainConfig where
  countryOk : Bool
  stockLimitOk : Bool
  analysisDurOk : Bool
  chartDurOk : Bool
  chartInterval : String
  chartDaysBack : ℚ
deriving Repr

/-- Collaborator outcomes during a run. -/
structure FetchEnv where
  csvSymbols : List String
  analysisFetchOk : Bool
  chartFetchOk : Bool
  anyResults : Bool
deriving Repr

/-- Effect trace of main.py `main()` (lines 151-268): prompt validations,
the lookback check, then CSV read, the two bulk fetches, per-symbol
processing, output-folder preparation (`shutil.rmtree` + `os.makedirs`,
lines 235-237), the parallel render and the summary report. -/
def main_trace (cfg : MainConfig) (env : FetchEnv) : List Effect :=
  if ¬ cfg.countryOk then [] else
  if ¬ cfg.stockLimitOk then [] else
  if ¬ cfg.analysisDurOk then [] else
  if ¬ cfg.chartDurOk then [] else
  if lookbackViolated cfg.chartInterval cfg.chartDaysBack then
    [Effect.configError]
  else
    Effect.readCsv ::
      (if env.csvSymbols.isEmpty then [] else
        Effect.fetchAnalysis ::
          (if ¬ env.analysisFetchOk then [] else
            Effect.fetchChart ::
              (if ¬ env.chartFetchOk then [] else
                if ¬ env.anyResults then [] else
                  [Effect.prepareOutDir, Effect.renderCharts,
                    Effect.report])))

/-- The GUI-supplied configuration of main_ui.py's
`run_backend_processing`.  The GUI validates only that the numeric fields
parse; there is NO lookback table and NO lookback check in this script. -/
structure UiConfig where
  chartInterval : String
  chartDaysBack : ℚ
deriving Repr

/-- Effect trace of main_ui.py `run_backend_processing` (lines 94-173): CSV
read, the two bulk fetches, processing, output-folder preparation, render,
final status.  Any raised error is caught by the blanket handler and
reported as an error status (`runError`).  Note: no step consults
`cfg.chartInterval` or `cfg.chartDaysBack` before fetching. -/
def ui_trace (_cfg : UiConfig) (env : FetchEnv) : List Effect :=
  Effect.readCsv ::
    (if env.csvSymbols.isEmpty then [Effect.runError] else
      Effect.fetchAnalysis ::
        (if ¬ env.analysisFetchOk then [Effect.runError] else
          Effect.fetchChart ::
            (if ¬ env.chartFetchOk then [Effect.runError] else
              if ¬ env.anyResults then [Effect.runError] else
                [Effect.prepareOutDir, Effect.renderCharts,
                  Effect.report])))

/-- The prompt-derived run configuration of new.py's `main()`. -/
structure NewConfig where
  countryOk : Bool
  stockLimitOk : Bool
  durTypeOk : Bool
  durOk : Bool
  intervalOk : Bool
deriving Repr

/-- Collaborator outcomes for new.py's single bulk fetch. -/
structure NewEnv where
  csvSymbols : List String
  fetchOk : Bool
deriving Repr

/-- Effect trace of new.py `main()` (lines 131-254): prompt validations,
then — BEFORE the CSV read and the fetch — the output folder is recreated
(`shutil.rmtree` + `os.makedirs`, lines 172-175); then CSV read, one bulk
fetch, processing, render and report. -/
def new_trace (cfg : NewConfig) (env : NewEnv) : List Effect :=
  if ¬ cfg.countryOk then [] else
  if ¬ cfg.stockLimitOk then [] else
  if ¬ cfg.durTypeOk then [] else
  if ¬ cfg.durOk then [] else
  if ¬ cfg.intervalOk then [] else
  Effect.prepareOutDir ::
    Effect.readCsv ::
      (if env.csvSymbols.isEmpty then [] else
        Effect.fetchData ::
          (if ¬ env.fetchOk then [] else
            [Effect.renderCharts, Effect.report]))

/-- C8 counterexample: main_ui.py issues the bulk fetch even for a
configuration that violates the 1m interval's 7-day lookback limit (chart
window of 30 days), and never raises a configuration error for it. -/
theorem ui_fetches_despite_lookback :
    lookbackViolated "1m" 30 = true
    ∧ Effect.fetchAnalysis ∈ ui_trace ⟨"1m", 30⟩ ⟨["AAA"], true, true, true⟩
    ∧ Effect.configError ∉ ui_trace ⟨"1m", 30⟩ ⟨["AAA"], true, true, true⟩ := by
  decide

/-- C8 amended: in main.py a chart window exceeding the chart interval's
known lookback limit aborts the run with a configuration error before the
CSV read and before either bulk fetch; main_ui.py performs no such check and
fetches regardless (see the counterexample). -/
theorem lookback_validated_before_fetch (cfg : MainConfig) (env : FetchEnv)
    (h : lookbackViolated cfg.chartInterval cfg.chartDaysBack = true) :
    Effect.fetchAnalysis ∉ main_trace cfg env
    ∧ Effect.fetchChart ∉ main_trace cfg env
    ∧ Effect.readCsv ∉ main_trace cfg env
    ∧ (cfg.countryOk → cfg.stockLimitOk → cfg.analysisDurOk →
        cfg.chartDurOk → main_trace cfg env = [Effect.configError]) := by
  rcases cfg with ⟨co, sl, ad, cd, ci, days⟩
  cases co <;> cases sl <;> cases ad <;> cases cd <;>
    simp_all [main_trace]

/-- Witness for C8 (amended): interval 1m with a 30-day chart window; the
trace is exactly the configuration error. -/
theorem lookback_validated_before_fetch_witness :
    main_trace ⟨true, true, true, true, "1m", 30⟩ ⟨["AAA"], true, true, true⟩
      = [Effect.configError] := by
  exact (lookback_validated_before_fetch
    ⟨true, true, true, true, "1m", 30⟩ ⟨["AAA"], true, true, true⟩
    (by decide)).2.2.2 rfl rfl rfl rfl

/-- C9 counterexample: in new.py the output directory is recreated (deleting
any images of a previous run) BEFORE the bulk fetch, so on a failed fetch
the directory has been modified even though nothing downstream runs: with
all prompts valid and the fetch failing, the trace contains
`prepareOutDir` (at position 0, before `fetchData` at position 2). -/
theorem new_modifies_outdir_despite_fetch_error :
    new_trace ⟨true, true, true, true, true⟩ ⟨["AAA"], false⟩
        = [Effect.prepareOutDir, Effect.readCsv, Effect.fetchData]
      ∧ Effect.prepareOutDir ∈
          new_trace ⟨true, true, true, true, true⟩ ⟨["AAA"], false⟩
      ∧ Effect.renderCharts ∉
          new_trace ⟨true, true, true, true, true⟩ ⟨["AAA"], false⟩ := by
  decide

/-- C9 amended: in main.py a failed or empty bulk fetch (either of the two)
aborts the run with no render and with the output directory untouched; in
new.py a failed fetch likewise aborts with no render and no chart output,
but the output directory has already been recreated before the fetch, so the
previous run's images are gone (see the counterexample). -/
theorem fetch_error_aborts (cfg : MainConfig) (env : FetchEnv)
    (ncfg : NewConfig) (nenv : NewEnv) :
    (env.analysisFetchOk = false →
      Effect.prepareOutDir ∉ main_trace cfg env
      ∧ Effect.renderCharts ∉ main_trace cfg env
      ∧ Effect.fetchChart ∉ main_trace cfg env)
    ∧ (env.chartFetchOk = false →
      Effect.prepareOutDir ∉ main_trace cfg env
      ∧ Effect.renderCharts ∉ main_trace cfg env)
    ∧ (nenv.fetchOk = false →
      Effect.renderCharts ∉ new_trace ncfg nenv
      ∧ Effect.report ∉ new_trace ncfg nenv) := by
  refine ⟨?_, ?_, ?_⟩
  · intro hfa
    rcases cfg with ⟨co, sl, ad, cd, ci, days⟩
    cases co <;> cases sl <;> cases ad <;> cases cd <;>
      cases hlb : lookbackViolated ci days <;>
      cases he : env.csvSymbols.isEmpty <;>
      simp_all [main_trace]
  · intro hfc
    rcases cfg with ⟨co, sl, ad, cd, ci, days⟩
    cases co <;> cases sl <;> cases ad <;> cases cd <;>
      cases hlb : lookbackViolated ci days <;>
      cases he : env.csvSymbols.isEmpty <;>
      cases hfa : env.analysisFetchOk <;>
      simp_all [main_trace]
  · intro hf
    rcases ncfg with ⟨co, sl, dt, du, iv⟩
    cases co <;> cases sl <;> cases dt <;> cases du <;> cases iv <;>
      cases he : nenv.csvSymbols.isEmpty <;>
      simp_all [new_trace]

/-- Witness for C9 (amended) at a concrete failing analysis fetch. -/
theorem fetch_error_aborts_witness :
    Effect.prepareOutDir ∉ main_trace
        ⟨true, true, true, true, "1d", 30⟩ ⟨["AAA"], false, true, true⟩
      ∧ Effect.renderCharts ∉ new_trace
        ⟨true, true, true, true, true⟩ ⟨["AAA"], false⟩ := by
  have h := fetch_error_aborts ⟨true, true, true, true, "1d", 30⟩
    ⟨["AAA"], false, true, true⟩ ⟨true, true, true, true, true⟩
    ⟨["AAA"], false⟩
  exact ⟨(h.1 rfl).1, (h.2.2 rfl).1⟩

end Bullfolio
